import Mathlib

/-!
Shallow embedding of the dashboard view-model loader and theme handling of
src/src/App.js (Parva-Mini-Project), together with proofs of the testable
properties of its specification.

Modelling conventions:
- Parsed JSON documents are the inductive `Json`. Numeric literals are
  modelled as integers: the component performs no arithmetic on payload
  numbers (frequencies and summary values are copied opaquely; the
  two-decimal display formatting of mean/sd is presentation-only and out of
  scope of every property proved here).
- A JavaScript property access `x.f` throws a TypeError when `x` is null or
  undefined and otherwise yields the field value or undefined; `jsGet`
  mirrors this with `Except Unit (Option Json)`, where `none` stands for
  undefined.
- The fetch outcome is `FetchResult`: a network-level failure, or a response
  with an ok flag and a body given as `Option Json` (`none` = the body does
  not parse as JSON, so `res.json()` rejects).
- React state updates inside one promise handler are modelled by explicit
  state passing: an update performed before a later expression throws is
  retained, exactly as `setSummary` before the `.map` call in the source.
-/

/-- A parsed JSON value (numbers as integers, see module comment). -/
inductive Json where
  | null
  | bool (b : Bool)
  | num (n : Int)
  | str (s : String)
  | arr (elems : List Json)
  | obj (fields : List (String × Json))

/-- Key lookup in a parsed JSON object. `JSON.parse` output has distinct
keys, so first-match lookup is exact. -/
def jsLookup : List (String × Json) → String → Option Json
  | [], _ => none
  | (k, v) :: rest, key => if k = key then some v else jsLookup rest key

/-- Property access `x.f` in JavaScript: throws (`Except.error`) when the
receiver is null, yields the field on objects, undefined (`none`) otherwise. -/
def jsGet : Json → String → Except Unit (Option Json)
  | Json.null, _ => Except.error ()
  | Json.obj fields, key => Except.ok (jsLookup fields key)
  | _, _ => Except.ok none

/-- Total property access used in statements: the field of an object,
`none` (undefined) on every other receiver. Agrees with `jsGet` whenever
`jsGet` does not throw. -/
def jsField : Json → String → Option Json
  | Json.obj fields, key => jsLookup fields key
  | _, _ => none

/-- JavaScript truthiness of a JSON value. -/
def truthy : Json → Bool
  | Json.null => false
  | Json.bool b => b
  | Json.num n => n != 0
  | Json.str s => s != ""
  | Json.arr _ => true
  | Json.obj _ => true

/-- Truthiness of a possibly-undefined value (undefined is falsy). -/
def truthyOpt : Option Json → Bool
  | none => false
  | some j => truthy j

/-- One element of the derived chart series: `{time: item.Var1,
accidents: item.Freq}`. Fields are `Option Json` because property access on
a non-null non-object yields undefined. -/
structure SeriesPoint where
  time : Option Json
  accidents : Option Json

/-- The arrow body `(item) => ({time: item.Var1, accidents: item.Freq})`:
throws exactly when `item` is null. -/
def mapItem (item : Json) : Except Unit SeriesPoint :=
  match jsGet item "Var1" with
  | Except.error e => Except.error e
  | Except.ok t =>
    match jsGet item "Freq" with
    | Except.error e => Except.error e
    | Except.ok f => Except.ok { time := t, accidents := f }

/-- `Array.prototype.map` over the parsed array, left to right, aborting at
the first element whose mapping throws. -/
def mapChartData : List Json → Except Unit (List SeriesPoint)
  | [] => Except.ok []
  | item :: rest =>
    match mapItem item with
    | Except.error e => Except.error e
    | Except.ok p =>
      match mapChartData rest with
      | Except.error e => Except.error e
      | Except.ok ps => Except.ok (p :: ps)

/-- `json.accident_by_time.map(...)` on a truthy value: arrays are mapped;
on any other truthy value `.map` is not a function and the call throws. -/
def chartDataOf : Json → Except Unit (List SeriesPoint)
  | Json.arr elems => mapChartData elems
  | _ => Except.error ()

/-- The component state relevant to data loading: the `data`, `summary`,
`loading` and `error` useState cells. `summary` is `Option Json` with
`none` covering both its initial null and an undefined `json.summary`. -/
structure AppState where
  data : List SeriesPoint
  summary : Option Json
  loading : Bool
  error : String

/-- The initial state: `useState([])`, `useState(null)`, `useState(true)`,
`useState("")`. -/
def initState : AppState :=
  { data := [], summary := none, loading := true, error := "" }

/-- The fixed message installed by the catch handler. -/
def errorMessage : String :=
  "⚠️ Unable to load dashboard_data.json. Please check the file path."

/-- The catch handler: set the fixed error message and clear loading,
leaving every other cell as it was when the throw happened. -/
def failWith (st : AppState) : AppState :=
  { st with error := errorMessage, loading := false }

/-- Outcome of the single fetch: network failure, or a response with its
ok flag and its body as parsed JSON (`none` = body does not parse). -/
inductive FetchResult where
  | networkError
  | response (ok : Bool) (body : Option Json)

/-- The success handler `(json) => {...}`: store `json.summary`, then map
`json.accident_by_time` when truthy, then clear loading. Any throw lands in
the catch handler, with the updates already performed retained. -/
def handleSuccess (st0 : AppState) (json : Json) : AppState :=
  match jsGet json "summary" with
  | Except.error _ => failWith st0
  | Except.ok s =>
    let st1 : AppState := { st0 with summary := s }
    match jsGet json "accident_by_time" with
    | Except.error _ => failWith st1
    | Except.ok none => { st1 with loading := false }
    | Except.ok (some abt) =>
      if truthy abt then
        match chartDataOf abt with
        | Except.error _ => failWith st1
        | Except.ok chartData => { st1 with data := chartData, loading := false }
      else { st1 with loading := false }

/-- The whole fetch effect, from the state at resolution time and the fetch
outcome to the state after the promise chain settles: a network failure or
`!res.ok` or a rejecting `res.json()` reaches the catch handler; a parsed
body reaches the success handler. -/
def load (st : AppState) : FetchResult → AppState
  | FetchResult.networkError => failWith st
  | FetchResult.response ok body =>
    if ok then
      match body with
      | none => failWith st
      | some json => handleSuccess st json
    else failWith st

/-- The externally visible load state, as the render derives it:
`loading ? ... : error ? ... : ready`. -/
inductive LoadState where
  | loading
  | error (msg : String)
  | ready (summary : Option Json) (series : List SeriesPoint)

/-- Derive the rendered branch from the state flags (a nonempty `error`
string is truthy). -/
def loadStateOf (st : AppState) : LoadState :=
  if st.loading then LoadState.loading
  else if st.error = "" then LoadState.ready st.summary st.data
  else LoadState.error st.error

/-- Whether a load state is the Loading variant. -/
def isLoadingS (l : LoadState) : Prop := l = LoadState.loading

/-- Whether a load state is the Error variant. -/
def isErrorS (l : LoadState) : Prop := ∃ m, l = LoadState.error m

/-- Whether a load state is the Ready variant. -/
def isReadyS (l : LoadState) : Prop := ∃ s d, l = LoadState.ready s d

/-- The fetch effect runs once, issued at mount while the component is in
its initial Loading state; the single resolution of that fetch is the only
transition of the data state. -/
inductive Step : AppState → AppState → Prop
  | fetchResolves (st : AppState) (r : FetchResult) :
      st.loading = true → Step st (load st r)

/-- The stat-card expression `summary?.rowsLoaded ?? "-"` (and its three
siblings): `none` is the "-" placeholder; a present non-null field is
displayed as is. Never throws. -/
def statDisplay (summary : Option Json) (key : String) : Option Json :=
  match summary with
  | some (Json.obj fields) =>
    match jsLookup fields key with
    | some Json.null => none
    | some v => some v
    | none => none
  | _ => none

/-- `Object.keys` of a non-null value: own enumerable keys (object keys,
array indices, string indices); the null and undefined receivers are
handled by the caller, where the call throws. -/
def jsKeys : Json → List String
  | Json.obj fields => fields.map Prod.fst
  | Json.arr elems => (List.range elems.length).map (fun n => toString n)
  | Json.str s => (List.range s.length).map (fun n => toString n)
  | _ => []

/-- Computed property access `x[k]` on a non-null receiver (string keys from
`Object.keys`): object field, array element at a numeric key, one-character
string at a numeric key of a string, undefined otherwise. -/
def jsIndex : Json → String → Option Json
  | Json.obj fields, key => jsLookup fields key
  | Json.arr elems, key =>
    match key.toNat? with
    | some n => elems[n]?
    | none => none
  | Json.str s, key =>
    match key.toNat? with
    | some n => (s.toList[n]?).map (fun c => Json.str (String.mk [c]))
    | none => none
  | _, _ => none

/-- One entry of the numeric-stats grid for key `k`:
`summary.numericStats[k].mean` / `.sd`. Throws when the entry is null or
undefined; the displayed values are kept raw (the `Number(...).toFixed(2)`
formatting is presentation-only and never throws). -/
def renderNumEntry (stats : Json) (key : String) :
    Except Unit (String × Option Json × Option Json) :=
  match jsIndex stats key with
  | none => Except.error ()
  | some Json.null => Except.error ()
  | some v => Except.ok (key, jsField v "mean", jsField v "sd")

/-- Map a throwing entry renderer over the key list, left to right. -/
def renderNumEntries (stats : Json) :
    List String → Except Unit (List (String × Option Json × Option Json))
  | [] => Except.ok []
  | k :: ks =>
    match renderNumEntry stats k with
    | Except.error e => Except.error e
    | Except.ok entry =>
      match renderNumEntries stats ks with
      | Except.error e => Except.error e
      | Except.ok entries => Except.ok (entry :: entries)

/-- The numeric card `summary && Object.keys(summary.numericStats).map(...)`:
nothing when `summary` is falsy; otherwise `Object.keys` throws when
`summary.numericStats` is null or undefined, else each key is rendered. -/
def renderNumericCard (summary : Option Json) :
    Except Unit (List (String × Option Json × Option Json)) :=
  match summary with
  | none => Except.ok []
  | some s =>
    if truthy s then
      match jsField s "numericStats" with
      | none => Except.error ()
      | some Json.null => Except.error ()
      | some stats => renderNumEntries stats (jsKeys stats)
    else Except.ok []

/-- The display data produced by the Ready branch of the render. -/
structure ReadyView where
  rowsLoaded : Option Json
  rowsUsed : Option Json
  trainedSamples : Option Json
  featureVectorLength : Option Json
  numericStats : List (String × Option Json × Option Json)
  series : List SeriesPoint

/-- Render the Ready branch: stat cards never throw; the numeric card can.
The three charts consume `st.data` as is. -/
def renderReady (st : AppState) : Except Unit ReadyView :=
  match renderNumericCard st.summary with
  | Except.error e => Except.error e
  | Except.ok numeric =>
    Except.ok
      { rowsLoaded := statDisplay st.summary "rowsLoaded"
        rowsUsed := statDisplay st.summary "rowsUsed"
        trainedSamples := statDisplay st.summary "trainedSamples"
        featureVectorLength := statDisplay st.summary "featureVectorLength"
        numericStats := numeric
        series := st.data }

/-- The record predicate of a chart input element: an object carrying both
a Var1 and a Freq field. -/
def isRecordItem : Json → Bool
  | Json.obj fields =>
    (jsLookup fields "Var1").isSome && (jsLookup fields "Freq").isSome
  | _ => false

/-- The theme initializer
`try { return localStorage.getItem("theme") || "light" } catch { return "light" }`:
a throwing read, an absent key (null) and an empty stored string (falsy) all
yield light; any other stored string is used as is. -/
def initTheme : Except Unit (Option String) → String
  | Except.error _ => "light"
  | Except.ok none => "light"
  | Except.ok (some s) => if s = "" then "light" else s

/-- The theme persistence effect body around its store write:
`localStorage.setItem("theme", theme)` with no try/catch, so a throwing
write propagates out of the effect. -/
def persistTheme (theme : String)
    (setItem : String → String → Except Unit Unit) : Except Unit Unit :=
  setItem "theme" theme

/-- The click handler `() => setTheme((t) => (t === "light" ? "dark" : "light"))`. -/
def toggleTheme (t : String) : String :=
  if t = "light" then "dark" else "light"

/-- In-memory theme together with the value last written to the store. -/
structure ThemeState where
  theme : String
  stored : Option String

/-- One toggle click followed by the `[theme]` effect re-running (the theme
always changes under a toggle) with a successful store write. -/
def toggleStep (s : ThemeState) : ThemeState :=
  let t := toggleTheme s.theme
  { theme := t, stored := some t }

/-- C2: a response whose HTTP status is not OK reaches the Error state with
exactly the fixed message, regardless of the body content. -/
theorem c2_non_ok_yields_fixed_error (body : Option Json) :
    loadStateOf (load initState (FetchResult.response false body)) =
      LoadState.error errorMessage :=
  rfl

/-- C3: a body that fails to parse reaches the Error state with the same
fixed message as an HTTP failure, and the resulting component state is
identical to the one after a non-OK response or a network failure, so the
two failure kinds are externally indistinguishable. -/
theorem c3_parse_failure_indistinguishable (body : Option Json) :
    loadStateOf (load initState (FetchResult.response true none)) =
      LoadState.error errorMessage
    ∧ load initState (FetchResult.response true none) =
      load initState (FetchResult.response false body)
    ∧ load initState (FetchResult.response true none) =
      load initState FetchResult.networkError :=
  ⟨rfl, rfl, rfl⟩

/-- C4: a successfully parsed object payload without an accident_by_time
field reaches Ready (not Error) with an empty series. -/
theorem c4_absent_series_ready_empty (fields : List (String × Json))
    (habs : jsLookup fields "accident_by_time" = none) :
    loadStateOf (load initState (FetchResult.response true (some (Json.obj fields)))) =
      LoadState.ready (jsLookup fields "summary") [] := by
  show loadStateOf (handleSuccess initState (Json.obj fields)) = _
  unfold handleSuccess
  simp only [jsGet, habs]
  rfl

/-- Closed instance of the C4 theorem at a concrete payload carrying only a
summary field. -/
theorem c4_witness :
    loadStateOf (load initState (FetchResult.response true
        (some (Json.obj [("summary", Json.num 7)])))) =
      LoadState.ready (some (Json.num 7)) [] :=
  c4_absent_series_ready_empty [("summary", Json.num 7)] rfl

/-- An HTTP-OK, parseable payload whose summary is present but carries no
numericStats sub-field. -/
def payloadEmptySummary : Json := Json.obj [("summary", Json.obj [])]

/-- C5: evaluation of the code at the failing input. The payload
`left-brace "summary": left-brace right-brace right-brace` is HTTP-OK and
parses, so the loader reaches Ready; but the Ready render then throws,
because `Object.keys(summary.numericStats)` dereferences the absent
numericStats sub-field without a guard, contradicting the placeholder
policy the claim states. A payload missing summary entirely does render
with placeholders, as the claim says. -/
theorem c5_numeric_stats_render_throws :
    loadStateOf (load initState (FetchResult.response true (some payloadEmptySummary))) =
      LoadState.ready (some (Json.obj [])) []
    ∧ renderReady (load initState (FetchResult.response true (some payloadEmptySummary))) =
      Except.error ()
    ∧ renderReady (load initState (FetchResult.response true (some (Json.obj [])))) =
      Except.ok
        { rowsLoaded := none, rowsUsed := none, trainedSamples := none,
          featureVectorLength := none, numericStats := [], series := [] } :=
  ⟨rfl, rfl, rfl⟩

/-- A payload whose accident_by_time field is present and truthy but not an
array, so the mapping throws after the summary was already stored. -/
def payloadNonArraySeries : Json :=
  Json.obj [("summary", Json.obj [("rowsLoaded", Json.num 100)]),
            ("accident_by_time", Json.num 5)]

/-- C6 counterexample: an execution that ends in the Error state while
retaining payload-derived data. The success handler stores `json.summary`
before `json.accident_by_time.map(...)` throws on a non-array value, so the
catch handler leaves the already-stored summary in place, different from
its pre-load value. -/
theorem c6_error_retains_summary :
    loadStateOf (load initState (FetchResult.response true (some payloadNonArraySeries))) =
      LoadState.error errorMessage
    ∧ (load initState (FetchResult.response true (some payloadNonArraySeries))).summary =
      some (Json.obj [("rowsLoaded", Json.num 100)])
    ∧ initState.summary = none
    ∧ (load initState (FetchResult.response true (some payloadNonArraySeries))).summary ≠
      initState.summary := by
  refine ⟨rfl, rfl, rfl, ?_⟩
  intro h
  exact Option.noConfusion h

/-- C6 amended: a failure at the transport or parse stage (network failure,
non-OK response, or non-parseable body) discards the payload entirely,
leaving every payload-derived cell at its pre-load value; only a throw
inside the success handler after `setSummary` can retain payload data. -/
theorem c6_early_failures_discard_payload (body : Option Json) :
    load initState FetchResult.networkError =
      { data := [], summary := none, loading := false, error := errorMessage }
    ∧ load initState (FetchResult.response false body) =
      { data := [], summary := none, loading := false, error := errorMessage }
    ∧ load initState (FetchResult.response true none) =
      { data := [], summary := none, loading := false, error := errorMessage } :=
  ⟨rfl, rfl, rfl⟩

/-- On a record element (an object with Var1 and Freq), the arrow body does
not throw and produces exactly the field rename. -/
theorem mapItem_record (e : Json) (h : isRecordItem e = true) :
    mapItem e =
      Except.ok { time := jsField e "Var1", accidents := jsField e "Freq" } := by
  cases e <;> first
    | rfl
    | simp [isRecordItem] at h

/-- Mapping a list of record elements never throws and yields the pointwise
field rename, preserving length and order. -/
theorem mapChartData_records (xs : List Json) (h : xs.all isRecordItem = true) :
    mapChartData xs =
      Except.ok (xs.map (fun e =>
        { time := jsField e "Var1", accidents := jsField e "Freq" })) := by
  induction xs with
  | nil => rfl
  | cons e rest ih =>
    rw [List.all_cons, Bool.and_eq_true] at h
    simp [mapChartData, mapItem_record e h.1, ih h.2]

/-- On an object payload whose accident_by_time field is an array of record
elements, the whole load computes to the Ready-shaped state carrying the
renamed series. -/
theorem load_obj_with_records (fields : List (String × Json)) (xs : List Json)
    (habt : jsLookup fields "accident_by_time" = some (Json.arr xs))
    (hrec : xs.all isRecordItem = true) :
    load initState (FetchResult.response true (some (Json.obj fields))) =
      { data := xs.map (fun e =>
          { time := jsField e "Var1", accidents := jsField e "Freq" }),
        summary := jsLookup fields "summary", loading := false, error := "" } := by
  show handleSuccess initState (Json.obj fields) = _
  unfold handleSuccess
  simp only [jsGet, habt, truthy, chartDataOf, mapChartData_records xs hrec,
    if_true, initState]

/-- C1: for a fetched payload that parses to an object whose
accident_by_time field is an array of Var1/Freq records, the loader reaches
Ready, and the derived series has the same length as the input array,
preserves its order, and its i-th element is the i-th record with Var1
renamed to time and Freq renamed to accidents, the values unmodified. -/
theorem c1_ready_series_mirrors_input (fields : List (String × Json))
    (xs : List Json) (st : AppState)
    (hst : st = load initState (FetchResult.response true (some (Json.obj fields))))
    (habt : jsLookup fields "accident_by_time" = some (Json.arr xs))
    (hrec : xs.all isRecordItem = true) :
    loadStateOf st =
      LoadState.ready (jsLookup fields "summary")
        (xs.map (fun e => { time := jsField e "Var1", accidents := jsField e "Freq" }))
    ∧ st.data.length = xs.length
    ∧ ∀ (i : Nat) (h1 : i < xs.length) (h2 : i < st.data.length),
        (st.data[i]).time = jsField (xs[i]) "Var1"
        ∧ (st.data[i]).accidents = jsField (xs[i]) "Freq" := by
  have hstate := load_obj_with_records fields xs habt hrec
  rw [hstate] at hst
  refine ⟨?_, ?_, ?_⟩
  · rw [hst]; rfl
  · rw [hst]; simp
  · intro i h1 h2
    have hd : st.data = xs.map (fun e =>
        { time := jsField e "Var1", accidents := jsField e "Freq" }) := by rw [hst]
    simp only [hd, List.getElem_map]
    exact ⟨trivial, trivial⟩

/-- The two-point series of the example payload of the specification. -/
def demoItems : List Json :=
  [Json.obj [("Var1", Json.str "Morning"), ("Freq", Json.num 10)],
   Json.obj [("Var1", Json.str "Evening"), ("Freq", Json.num 25)]]

/-- The example payload fields: a summary object and the two-point series. -/
def demoFields : List (String × Json) :=
  [("summary", Json.obj [("rowsLoaded", Json.num 100)]),
   ("accident_by_time", Json.arr demoItems)]

/-- Closed instance of the C1 theorem at the example payload. -/
theorem c1_witness :
    loadStateOf (load initState (FetchResult.response true (some (Json.obj demoFields)))) =
      LoadState.ready (some (Json.obj [("rowsLoaded", Json.num 100)]))
        [{ time := some (Json.str "Morning"), accidents := some (Json.num 10) },
         { time := some (Json.str "Evening"), accidents := some (Json.num 25) }] :=
  (c1_ready_series_mirrors_input demoFields demoItems _ rfl rfl rfl).1

/-- Every branch of the success handler clears the loading flag. -/
theorem handleSuccess_clears_loading (st : AppState) (json : Json) :
    (handleSuccess st json).loading = false := by
  unfold handleSuccess
  split
  · rfl
  · split
    · rfl
    · rfl
    · split
      · split
        · rfl
        · rfl
      · rfl

/-- Every outcome of the fetch clears the loading flag. -/
theorem load_clears_loading (st : AppState) (r : FetchResult) :
    (load st r).loading = false := by
  cases r with
  | networkError => rfl
  | response ok body =>
    cases ok with
    | false => rfl
    | true =>
      cases body with
      | none => rfl
      | some json => exact handleSuccess_clears_loading st json

/-- The derived load state is always one of the three variants. -/
theorem loadStateOf_cases (st : AppState) :
    isLoadingS (loadStateOf st) ∨ isErrorS (loadStateOf st) ∨ isReadyS (loadStateOf st) := by
  unfold loadStateOf isLoadingS isErrorS isReadyS
  split
  · exact Or.inl rfl
  · split
    · exact Or.inr (Or.inr ⟨_, _, rfl⟩)
    · exact Or.inr (Or.inl ⟨_, rfl⟩)

/-- After any fetch outcome the derived load state is not Loading. -/
theorem load_not_loading (st : AppState) (r : FetchResult) :
    ¬ isLoadingS (loadStateOf (load st r)) := by
  intro h
  unfold isLoadingS loadStateOf at h
  rw [load_clears_loading st r] at h
  simp at h
  split at h <;> exact LoadState.noConfusion h

/-- Whether a JSON value is the null literal. -/
def isNullJson : Json → Bool
  | Json.null => true
  | _ => false

/-- Whether `.map(...)` on a truthy accident_by_time value throws: it does
on every non-array (no map method) and on an array containing a null
element (the arrow body dereferences it). -/
def mapThrows : Json → Bool
  | Json.arr elems => elems.any isNullJson
  | _ => true

/-- Whether the success handler throws on a parsed body: on a null payload
(`json.summary` throws) and on a present, truthy accident_by_time whose
mapping throws; on everything else it completes and clears loading. -/
def handlerThrows : Json → Bool
  | Json.null => true
  | Json.obj fields =>
    match jsLookup fields "accident_by_time" with
    | none => false
    | some abt => truthy abt && mapThrows abt
  | _ => false

/-- On a non-null element the arrow body does not throw and produces the
field rename. -/
theorem mapItem_ok_of_not_null (e : Json) (h : isNullJson e = false) :
    mapItem e = Except.ok { time := jsField e "Var1", accidents := jsField e "Freq" } := by
  cases e <;> first
    | rfl
    | simp [isNullJson] at h

/-- Mapping an array with a null element throws. -/
theorem mapChartData_error_of_any_null (elems : List Json)
    (h : elems.any isNullJson = true) : mapChartData elems = Except.error () := by
  induction elems with
  | nil => simp [List.any_nil] at h
  | cons e rest ih =>
    rw [List.any_cons, Bool.or_eq_true] at h
    rcases h with he | hrest
    · have hnull : e = Json.null := by
        cases e
        case null => rfl
        all_goals simp [isNullJson] at he
      subst hnull
      rfl
    · cases he2 : isNullJson e with
      | false => simp only [mapChartData, mapItem_ok_of_not_null e he2, ih hrest]
      | true =>
        have hnull : e = Json.null := by
          cases e
          case null => rfl
          all_goals simp [isNullJson] at he2
        subst hnull
        rfl

/-- Mapping an array without null elements succeeds with the pointwise
field rename. -/
theorem mapChartData_ok_of_no_null (elems : List Json)
    (h : elems.any isNullJson = false) :
    mapChartData elems = Except.ok (elems.map (fun e =>
      { time := jsField e "Var1", accidents := jsField e "Freq" })) := by
  induction elems with
  | nil => rfl
  | cons e rest ih =>
    rw [List.any_cons, Bool.or_eq_false_iff] at h
    simp only [mapChartData, mapItem_ok_of_not_null e h.1, ih h.2, List.map_cons]

/-- A parsed body on which the success handler throws ends in the Error
state with the fixed message. -/
theorem handleSuccess_error_of_throws (json : Json) (h : handlerThrows json = true) :
    loadStateOf (handleSuccess initState json) = LoadState.error errorMessage := by
  cases json with
  | null => rfl
  | bool b => simp [handlerThrows] at h
  | num n => simp [handlerThrows] at h
  | str s => simp [handlerThrows] at h
  | arr elems => simp [handlerThrows] at h
  | obj fields =>
    simp only [handlerThrows] at h
    cases habt : jsLookup fields "accident_by_time" with
    | none => rw [habt] at h; simp at h
    | some abt =>
      rw [habt] at h
      rw [Bool.and_eq_true] at h
      unfold handleSuccess
      simp only [jsGet, habt, h.1, if_true]
      cases abt with
      | arr elems =>
        have hthr : elems.any isNullJson = true := by
          have := h.2
          simpa [mapThrows] using this
        simp only [chartDataOf, mapChartData_error_of_any_null elems hthr]
        rfl
      | null => rfl
      | bool b => rfl
      | num n => rfl
      | str s => rfl
      | obj f2 => rfl

/-- A parsed body on which the success handler completes ends in the Ready
state. -/
theorem handleSuccess_ready_of_no_throw (json : Json) (h : handlerThrows json = false) :
    isReadyS (loadStateOf (handleSuccess initState json)) := by
  cases json with
  | null => simp [handlerThrows] at h
  | bool b => exact ⟨_, _, rfl⟩
  | num n => exact ⟨_, _, rfl⟩
  | str s => exact ⟨_, _, rfl⟩
  | arr elems => exact ⟨_, _, rfl⟩
  | obj fields =>
    simp only [handlerThrows] at h
    cases habt : jsLookup fields "accident_by_time" with
    | none =>
      have heq : loadStateOf (handleSuccess initState (Json.obj fields)) =
          LoadState.ready (jsLookup fields "summary") [] := by
        unfold handleSuccess
        simp only [jsGet, habt]
        rfl
      exact ⟨_, _, heq⟩
    | some abt =>
      rw [habt] at h
      replace h : (truthy abt && mapThrows abt) = false := h
      cases htr : truthy abt with
      | false =>
        have heq : loadStateOf (handleSuccess initState (Json.obj fields)) =
            LoadState.ready (jsLookup fields "summary") [] := by
          unfold handleSuccess
          simp only [jsGet, habt, htr, Bool.false_eq_true, if_false]
          rfl
        exact ⟨_, _, heq⟩
      | true =>
        rw [htr, Bool.true_and] at h
        cases abt with
        | arr elems =>
          have hok : elems.any isNullJson = false := by simpa [mapThrows] using h
          have heq : loadStateOf (handleSuccess initState (Json.obj fields)) =
              LoadState.ready (jsLookup fields "summary") (elems.map (fun e =>
                { time := jsField e "Var1", accidents := jsField e "Freq" })) := by
            unfold handleSuccess
            simp only [jsGet, habt, htr, if_true, chartDataOf,
              mapChartData_ok_of_no_null elems hok]
            rfl
          exact ⟨_, _, heq⟩
        | null => simp [mapThrows] at h
        | bool b => simp [mapThrows] at h
        | num n => simp [mapThrows] at h
        | str s => simp [mapThrows] at h
        | obj f2 => simp [mapThrows] at h

/-- A payload that fetches with a 2xx status and parses successfully, yet
whose accident_by_time array contains a null element, so the success
handler throws. -/
def payloadNullSeriesItem : Json :=
  Json.obj [("accident_by_time", Json.arr [Json.null])]

/-- C7 counterexample: the transition conditions of the claim are false of
the code. This payload is a successful fetch (HTTP OK) whose body parses,
which the claim says transitions Loading to Ready; instead the success
handler throws while mapping the null series element and the loader ends in
the Error state, a Loading-to-Error transition caused by none of the three
causes the claim lists (fetch failure, non-2xx response, parse failure). -/
theorem c7_success_parse_to_error :
    loadStateOf (load initState (FetchResult.response true (some payloadNullSeriesItem))) =
      LoadState.error errorMessage :=
  rfl

/-- C7 amended: the derived load state is always exactly one of Loading,
Error and Ready; the initial state is Loading; the single fetch resolution
moves it to Error or to Ready, never back to Loading, and a resolved state
is terminal; Loading moves to Error on fetch failure, non-2xx response,
parse failure, or a throw inside the success handler (a null payload, or a
truthy non-array accident_by_time, or one with a null element), and moves
to Ready exactly on a successful fetch and parse whose success handler
completes without throwing. -/
theorem c7_load_state_machine :
    loadStateOf initState = LoadState.loading
    ∧ (∀ st : AppState,
        (isLoadingS (loadStateOf st) ∨ isErrorS (loadStateOf st) ∨ isReadyS (loadStateOf st))
        ∧ (isLoadingS (loadStateOf st) → ¬ isErrorS (loadStateOf st) ∧ ¬ isReadyS (loadStateOf st))
        ∧ (isErrorS (loadStateOf st) → ¬ isReadyS (loadStateOf st)))
    ∧ (∀ r : FetchResult,
        isErrorS (loadStateOf (load initState r)) ∨ isReadyS (loadStateOf (load initState r)))
    ∧ (∀ (st : AppState) (r : FetchResult), ¬ isLoadingS (loadStateOf (load st r)))
    ∧ (∀ s1 s2 : AppState, Step s1 s2 → ¬ isLoadingS (loadStateOf s2))
    ∧ (∀ s1 s2 : AppState, Step s1 s2 → ∀ s3 : AppState, ¬ Step s2 s3)
    ∧ (∀ body : Option Json,
        loadStateOf (load initState FetchResult.networkError) = LoadState.error errorMessage
        ∧ loadStateOf (load initState (FetchResult.response false body)) = LoadState.error errorMessage
        ∧ loadStateOf (load initState (FetchResult.response true none)) = LoadState.error errorMessage)
    ∧ (∀ json : Json, handlerThrows json = false →
        isReadyS (loadStateOf (load initState (FetchResult.response true (some json)))))
    ∧ (∀ json : Json, handlerThrows json = true →
        loadStateOf (load initState (FetchResult.response true (some json))) =
          LoadState.error errorMessage) := by
  refine ⟨rfl, ?_, ?_, load_not_loading, ?_, ?_, ?_, ?_, ?_⟩
  · intro st
    refine ⟨loadStateOf_cases st, ?_, ?_⟩ <;>
      generalize loadStateOf st = l <;>
      cases l <;> simp [isLoadingS, isErrorS, isReadyS]
  · intro r
    rcases loadStateOf_cases (load initState r) with h | h
    · exact absurd h (load_not_loading initState r)
    · exact h
  · intro s1 s2 hstep
    cases hstep with
    | fetchResolves r hld => exact load_not_loading s1 r
  · intro s1 s2 hstep s3 hstep2
    cases hstep with
    | fetchResolves r hld =>
      cases hstep2 with
      | fetchResolves r2 hld2 =>
        rw [load_clears_loading s1 r] at hld2
        exact Bool.noConfusion hld2
  · exact fun body => ⟨rfl, rfl, rfl⟩
  · exact fun json h => handleSuccess_ready_of_no_throw json h
  · exact fun json h => handleSuccess_error_of_throws json h

/-- Closed instance of the amended C7 theorem: a parsed empty-object body
completes the success handler and resolves to Ready, and the state resolved
from the initial fetch admits no further step. -/
theorem c7_witness :
    isReadyS (loadStateOf (load initState (FetchResult.response true (some (Json.obj [])))))
    ∧ ¬ Step (load initState FetchResult.networkError) initState :=
  ⟨c7_load_state_machine.2.2.2.2.2.2.2.1 (Json.obj []) rfl,
   c7_load_state_machine.2.2.2.2.2.1 initState (load initState FetchResult.networkError)
     (Step.fetchResolves initState FetchResult.networkError rfl) initState⟩

/-- C8 counterexample: a failing store write is not swallowed. The theme
initializer catches read failures, but `localStorage.setItem` in the
persistence effect has no try/catch, so a throwing write propagates out of
the effect instead of being swallowed, while a throwing read does default
to light. -/
theorem c8_write_failure_propagates :
    persistTheme "dark" (fun _key _value => Except.error ()) = Except.error ()
    ∧ initTheme (Except.error ()) = "light" :=
  ⟨rfl, rfl⟩

/-- C8 amended: read failures, an absent key and an empty stored value are
swallowed and default the theme to light, and a nonempty stored value is
used as is; but a store-write failure is not caught by the component and
propagates out of the theme persistence effect. -/
theorem c8_read_swallowed_write_propagates (s : String) (h : ¬ s = "") :
    initTheme (Except.error ()) = "light"
    ∧ initTheme (Except.ok none) = "light"
    ∧ initTheme (Except.ok (some "")) = "light"
    ∧ initTheme (Except.ok (some s)) = s
    ∧ persistTheme s (fun _key _value => Except.error ()) = Except.error ()
    ∧ persistTheme s (fun _key _value => Except.ok ()) = Except.ok () := by
  refine ⟨rfl, rfl, rfl, ?_, rfl, rfl⟩
  show (if s = "" then "light" else s) = s
  rw [if_neg h]

/-- Closed instance of the amended C8 theorem at the stored value dark. -/
theorem c8_witness :
    initTheme (Except.error ()) = "light"
    ∧ initTheme (Except.ok none) = "light"
    ∧ initTheme (Except.ok (some "")) = "light"
    ∧ initTheme (Except.ok (some "dark")) = "dark"
    ∧ persistTheme "dark" (fun _key _value => Except.error ()) = Except.error ()
    ∧ persistTheme "dark" (fun _key _value => Except.ok ()) = Except.ok () :=
  c8_read_swallowed_write_propagates "dark" (by decide)

/-- C9: from an in-enum theme, toggling twice returns to the original
value, and after each single toggle the value written to the store equals
the in-memory theme. -/
theorem c9_toggle_involution_persist (s : ThemeState)
    (h : s.theme = "light" ∨ s.theme = "dark") :
    (toggleStep (toggleStep s)).theme = s.theme
    ∧ (toggleStep s).stored = some (toggleStep s).theme
    ∧ (toggleStep (toggleStep s)).stored = some (toggleStep (toggleStep s)).theme := by
  obtain ⟨t, st⟩ := s
  rcases h with h | h <;> (dsimp at h; subst h) <;> exact ⟨rfl, rfl, rfl⟩

/-- Closed instance of the C9 theorem starting from the light theme. -/
theorem c9_witness :
    (toggleStep (toggleStep { theme := "light", stored := none })).theme = "light"
    ∧ (toggleStep { theme := "light", stored := none }).stored =
      some (toggleStep { theme := "light", stored := none }).theme
    ∧ (toggleStep (toggleStep { theme := "light", stored := none })).stored =
      some (toggleStep (toggleStep { theme := "light", stored := none })).theme :=
  c9_toggle_involution_persist { theme := "light", stored := none } (Or.inl rfl)

/-- C10: the toggle maps light to dark and every other string, including
out-of-enum values read from the store such as banana, to light; hence
after any single toggle the in-memory theme lies in the light/dark enum. -/
theorem c10_toggle_range (t : String) (h : ¬ t = "light") :
    toggleTheme "light" = "dark"
    ∧ toggleTheme t = "light"
    ∧ (∀ u : String, toggleTheme u = "light" ∨ toggleTheme u = "dark")
    ∧ toggleTheme "banana" = "light" := by
  refine ⟨rfl, ?_, ?_, rfl⟩
  · unfold toggleTheme
    rw [if_neg h]
  · intro u
    by_cases hu : u = "light"
    · right
      unfold toggleTheme
      rw [if_pos hu]
    · left
      unfold toggleTheme
      rw [if_neg hu]

/-- Closed instance of the C10 theorem at the stored value banana. -/
theorem c10_witness :
    toggleTheme "light" = "dark"
    ∧ toggleTheme "banana" = "light"
    ∧ (∀ u : String, toggleTheme u = "light" ∨ toggleTheme u = "dark")
    ∧ toggleTheme "banana" = "light" :=
  c10_toggle_range "banana" (by decide)
